import Mathlib

/-!
Shallow embedding of `src/wtmpdb.c` (wtmpdb command-line tool: the
reconciliation / rendering engine of `wtmpdb last`, and the boot/shutdown
session writer).  Machine integers are modelled as `Int` (the C code uses
`int64_t`; the only places where width matters are the `strtoll` clamping
bounds, modelled explicitly below).  C truncating division `/` and remainder
`%` on `int64_t` are modelled by `Int.tdiv` / `Int.tmod`.
-/

namespace Wtmpdb

/-- `USEC_PER_SEC` from wtmpdb.h (timestamps are microseconds since epoch). -/
def USEC_PER_SEC : Int := 1000000

/-- `INT64_MAX`: initial value of the running minimum `wtmp_start` (line 46). -/
def INT64_MAX : Int := 9223372036854775807

/-- `INT64_MIN`: lower clamping bound of `strtoll`. -/
def INT64_MIN : Int := -9223372036854775808

/-- Modelled from the spec: the record-type enum (`wtmpdb.h` is not part of
the visible source; the spec names USER_PROCESS and BOOT_TIME as the two
meaningful values).  The concrete numerals only matter in that the two are
distinct; the C code compares the parsed `type` field against them. -/
def BOOT_TIME : Int := 1

/-- Modelled from the spec: see `BOOT_TIME`. -/
def USER_PROCESS : Int := 3

/-! ## strtoll / atoi model (lines 99, 104-108, 114-118) -/

/-- Characters accepted by C `isspace` in the C locale, as skipped by
`strtoll` before the number. -/
def isSpaceC (c : Char) : Bool :=
  c = ' ' || c = '\t' || c = '\n' || c = '\x0b' || c = '\x0c' || c = '\r'

/-- Value of a base-10 digit string (most significant first). -/
def digitsToNat (ds : List Char) : Nat :=
  ds.foldl (fun a c => a * 10 + (c.toNat - 48)) 0

/-- `strtoll` clamps an out-of-range value to `INT64_MAX` / `INT64_MIN` and
reports `ERANGE`; the Bool is the `ERANGE` flag. -/
def clamp64 (x : Int) : Int × Bool :=
  if x > INT64_MAX then (INT64_MAX, true)
  else if x < INT64_MIN then (INT64_MIN, true)
  else (x, false)

/-- Result of the `strtoll (s, &endptr, 10)` model: the returned value, the
index `endptr - s` (0 when no conversion was performed, as `strtoll` then
sets `endptr` to the start of the string), the `ERANGE` flag, and whether any
conversion was performed at all. -/
structure StrtollRes where
  val : Int
  endIdx : Nat
  overflow : Bool
  conv : Bool
deriving DecidableEq

/-- The number of characters taken by the optional sign after the skipped
whitespace. -/
def signLenOf (s : String) : Nat :=
  match (s.toList.dropWhile isSpaceC).head? with
  | some '-' => 1
  | some '+' => 1
  | _ => 0

/-- The digit run consumed by the `strtoll` model. -/
def strtollDigits (s : String) : List Char :=
  ((s.toList.dropWhile isSpaceC).drop (signLenOf s)).takeWhile Char.isDigit

/-- Model of glibc `strtoll (s, &endptr, 10)`: skip C-locale whitespace, an
optional sign, then base-10 digits; clamp to the int64 range.  With no digit
run the result is 0 and `endptr` stays at the start of the string. -/
def strtoll (s : String) : StrtollRes :=
  let cs := s.toList
  let rest := cs.dropWhile isSpaceC
  let wsLen := cs.length - rest.length
  let neg : Bool := rest.head? == some '-'
  let ds := strtollDigits s
  if ds.isEmpty then ⟨0, 0, false, false⟩
  else
    let raw : Int := (if neg then -1 else 1) * (digitsToNat ds : Int)
    let c := clamp64 raw
    ⟨c.1, wsLen + signLenOf s + ds.length, c.2, true⟩

/-- Model of `atoi` (line 99); the record-type strings are small numerals, so
the int truncation of `atoi` is irrelevant and the `strtoll` value is used. -/
def atoi (s : String) : Int := (strtoll s).val

/-- The warning test of lines 105-106 / 115-116: the `errno == ERANGE` part
together with the value check, or trailing garbage after the digits
(`*endptr != '\0'`).  The `endptr == argv[1]` comparison in the source
compares a pointer into the time column against the type column; those are
distinct buffers, so that disjunct is always false and is modelled as such. -/
def timeWarn (s : String) : Bool :=
  let r := strtoll s
  (r.overflow && (r.val == INT64_MAX || r.val == INT64_MIN)) || r.endIdx < s.length

/-- The `fprintf (stderr, "Invalid numeric time entry for ...")` warning of
lines 107-108 / 117-118, as a list of emitted messages. -/
def parseWarn (which : String) (raw : String) : List String :=
  if timeWarn raw then
    ["Invalid numeric time entry for '" ++ which ++ "': '" ++ raw ++ "'"]
  else []

/-! ## Duration decomposition (lines 122-132) -/

/-- Line 122: `secs = (logout_t - login_t)/USEC_PER_SEC` (C truncating
division). -/
def durSecs (login_t logout_t : Int) : Int :=
  (logout_t - login_t).tdiv USEC_PER_SEC

/-- Line 123: `mins = (secs / 60) % 60` with C semantics. -/
def durMins (secs : Int) : Int := (secs.tdiv 60).tmod 60

/-- Line 124: `hours = (secs / 3600) % 24` with C semantics. -/
def durHours (secs : Int) : Int := (secs.tdiv 3600).tmod 24

/-- Line 125: `days = secs / 86400` with C semantics. -/
def durDays (secs : Int) : Int := secs.tdiv 86400

/-- `%02d`: glibc zero-pads to width 2; a negative value keeps its sign
(`-1` already has width 2, so no padding is added). -/
def pad2 (n : Int) : String :=
  if 0 ≤ n ∧ n < 10 then "0" ++ toString n else toString n

/-- Lines 127-132: the duration text `length` written by the three
`snprintf` calls (`(%d+%02d:%02d)`, ` (%02d:%02d)`, ` (00:%02d)`). -/
def lengthText (login_t logout_t : Int) : String :=
  let secs := durSecs login_t logout_t
  if durDays secs ≠ 0 then
    "(" ++ toString (durDays secs) ++ "+" ++ pad2 (durHours secs) ++ ":" ++
      pad2 (durMins secs) ++ ")"
  else if durHours secs ≠ 0 then
    " (" ++ pad2 (durHours secs) ++ ":" ++ pad2 (durMins secs) ++ ")"
  else
    " (00:" ++ pad2 (durMins secs) ++ ")"

/-! ## Time codec (lines 49-73) -/

/-- The three format selectors `TIMEFMT_CTIME` / `TIMEFMT_SHORT` /
`TIMEFMT_HHMM` of lines 42-44. -/
inductive TimeFmt
  | ctime
  | short
  | hhmm
deriving DecidableEq

/-- Civil date (year, month, day) of a day count since 1970-01-01
(proleptic Gregorian; Howard Hinnant's algorithm). -/
def civilFromDays (z0 : Int) : Int × Int × Int :=
  let z := z0 + 719468
  let era := z.fdiv 146097
  let doe := z - era * 146097
  let yoe := (doe - doe.fdiv 1460 + doe.fdiv 36524 - doe.fdiv 146096).fdiv 365
  let y := yoe + era * 400
  let doy := doe - (365 * yoe + yoe.fdiv 4 - yoe.fdiv 100)
  let mp := (5 * doy + 2).fdiv 153
  let d := doy - (153 * mp + 2).fdiv 5 + 1
  let m := mp + (if mp < 10 then 3 else -9)
  (y + (if m ≤ 2 then 1 else 0), m, d)

/-- Abbreviated month name, as produced by `%b` in the C locale. -/
def monthName (m : Int) : String :=
  if m = 1 then "Jan" else if m = 2 then "Feb" else if m = 3 then "Mar"
  else if m = 4 then "Apr" else if m = 5 then "May" else if m = 6 then "Jun"
  else if m = 7 then "Jul" else if m = 8 then "Aug" else if m = 9 then "Sep"
  else if m = 10 then "Oct" else if m = 11 then "Nov" else "Dec"

/-- Abbreviated weekday name (`%a`), index 0 = Sunday. -/
def weekdayName (w : Int) : String :=
  if w = 0 then "Sun" else if w = 1 then "Mon" else if w = 2 then "Tue"
  else if w = 3 then "Wed" else if w = 4 then "Thu" else if w = 5 then "Fri"
  else "Sat"

/-- Zero-padded two-digit field (`%H`, `%M`, `%S`, non-negative input). -/
def pad2n (n : Int) : String :=
  if n < 10 then "0" ++ toString n else toString n

/-- Space-padded day of month (`%e`). -/
def padSp (n : Int) : String :=
  if n < 10 then " " ++ toString n else toString n

/-- Modelled from the spec: `format_time` (lines 49-73) delegates to the libc
collaborators `ctime` / `localtime` / `strftime`, which are not part of the
visible source and depend on the process timezone; the spec's Time Codec
contract (FULL = `ctime` without the trailing newline, SHORT =
`"%a %b %e %H:%M"`, CLOCK = `"%H:%M"`) is modelled here at UTC.  The input is
whole seconds since the epoch (the caller divides microseconds down first). -/
def format_time (fmt : TimeFmt) (t : Int) : String :=
  let days := t.fdiv 86400
  let tod := t.fmod 86400
  let hh := tod.fdiv 3600
  let mm := (tod.fmod 3600).fdiv 60
  let ss := tod.fmod 60
  let c := civilFromDays days
  let wd := weekdayName ((days + 4).fmod 7)
  match fmt with
  | TimeFmt.ctime =>
      wd ++ " " ++ monthName c.2.1 ++ " " ++ padSp c.2.2 ++ " " ++ pad2n hh ++
        ":" ++ pad2n mm ++ ":" ++ pad2n ss ++ " " ++ toString c.1
  | TimeFmt.short =>
      wd ++ " " ++ monthName c.2.1 ++ " " ++ padSp c.2.2 ++ " " ++ pad2n hh ++
        ":" ++ pad2n mm
  | TimeFmt.hhmm => pad2n hh ++ ":" ++ pad2n mm

/-! ## Report renderer (print_entry, lines 75-185) -/

/-- One row as delivered to the `print_entry` callback: the eight sqlite
columns `ID, Type, User, LoginTime, LogoutTime, TTY, RemoteHost, Service`
(the callback reads indices 1-6; `LogoutTime` may be NULL, and `RemoteHost`
is defaulted to `""` when NULL at line 102). -/
structure RawEntry where
  typeRaw : String
  user : String
  loginRaw : String
  logoutRaw : Option String
  tty : String
  host : Option String
deriving DecidableEq

/-- The two static variables threaded through the pass:
`wtmp_start` (line 46, starts at `INT64_MAX`) and `after_reboot`
(line 47, starts at 0). -/
structure PState where
  wtmp_start : Int
  after_reboot : Bool
deriving DecidableEq

/-- Initial values of the pass state (lines 46-47). -/
def initState : PState := ⟨INT64_MAX, false⟩

/-- Result of one `print_entry` call: the updated static state, the line
printed to stdout, and the warnings printed to stderr. -/
structure POut where
  state : PState
  line : String
  warnings : List String
deriving DecidableEq

/-- `%-W.Ws`: truncate to at most `w` characters, then left-justify by
space-padding to width `w` (all columns of line 167 use width = precision). -/
def padTrunc (w : Nat) (s : String) : List Char :=
  let t := s.toList.take w
  t ++ List.replicate (w - t.length) ' '

/-- The `asprintf` format of line 167,
`"%-8.*s %-12.12s %-16.*s %-*.*s - %-*.*s %s\n"`, applied to
user, tty, host, logintime, logouttime, length with widths 8/12/16/16/5. -/
def mkLine (u t h li lo d : String) : List Char :=
  padTrunc 8 u ++ ' ' :: (padTrunc 12 t ++ ' ' :: (padTrunc 16 h ++ ' ' ::
    (padTrunc 16 li ++ ' ' :: '-' :: ' ' ::
      (padTrunc 5 lo ++ ' ' :: (d.toList ++ ['\n'])))))

/-- The `logouttime` text (lines 112-158): `TIMEFMT_HHMM` of the logout
timestamp when a logout is present; otherwise `"crash"` after a reboot, else
`"still"` / `"still"` / `"ERROR"` by record type. -/
def logoutText (after_reboot : Bool) (type : Int) (fmt : TimeFmt → Int → String)
    (logoutRaw : Option String) : String :=
  match logoutRaw with
  | some lr => fmt TimeFmt.hhmm ((strtoll lr).val.tdiv USEC_PER_SEC)
  | none =>
    if after_reboot then "crash"
    else if type = USER_PROCESS then "still"
    else if type = BOOT_TIME then "still"
    else "ERROR"

/-- The `length` text (lines 112-158): the duration decomposition when a
logout is present; otherwise `""` after a reboot, else
`"logged in"` / `"running"` / `"Unknown: <type>"` by record type. -/
def durText (after_reboot : Bool) (type : Int) (login_t : Int)
    (logoutRaw : Option String) : String :=
  match logoutRaw with
  | some lr => lengthText login_t (strtoll lr).val
  | none =>
    if after_reboot then ""
    else if type = USER_PROCESS then "logged in"
    else if type = BOOT_TIME then "running"
    else "Unknown: " ++ toString type

/-- `print_entry` (lines 75-185) on one well-formed row (the `argc != 8`
mangled-entry abort of lines 90-97 is outside `RawEntry`): parse type and
timestamps, classify, render one line, update `wtmp_start` (line 181) and
`after_reboot` (line 164), forcing the displayed tty of a `BOOT_TIME` record
to `"system boot"` (line 163).  The time formatter is the collaborator
argument `fmt`. -/
def print_entry (fmt : TimeFmt → Int → String) (st : PState) (e : RawEntry) :
    POut :=
  let type := atoi e.typeRaw
  let host := e.host.getD ""
  let login_t := (strtoll e.loginRaw).val
  let logintime := fmt TimeFmt.short (login_t.tdiv USEC_PER_SEC)
  let shownTty := if type = BOOT_TIME then "system boot" else e.tty
  { state :=
      { wtmp_start := if login_t < st.wtmp_start then login_t else st.wtmp_start,
        after_reboot := if type = BOOT_TIME then true else st.after_reboot },
    line := String.mk (mkLine e.user shownTty host logintime
      (logoutText st.after_reboot type fmt e.logoutRaw)
      (durText st.after_reboot type login_t e.logoutRaw)),
    warnings := parseWarn "login" e.loginRaw ++
      (match e.logoutRaw with
       | some lr => parseWarn "logout" lr
       | none => []) }

/-- The single pass of `wtmpdb_read_all` feeding every row to `print_entry`
in delivery order, starting from a given static state; returns the final
state and the printed lines. -/
def runPass (fmt : TimeFmt → Int → String) (st : PState) :
    List RawEntry → PState × List String
  | [] => (st, [])
  | e :: es =>
    let o := print_entry fmt st e
    let r := runPass fmt o.state es
    (r.1, o.line :: r.2)

/-- Outcome of the store's full-scan collaborator `wtmpdb_read_all`
(success with the delivered rows, or an error with an optional message). -/
inductive ReadResult
  | ok : List RawEntry → ReadResult
  | err : Option String → ReadResult

/-- `main_last` (lines 210-258) after option parsing: on a read error print
the collaborator's message (or the fallback text) and exit with failure; on
success print the per-record lines followed by the trailing
`"\n<path> begins <TIMEFMT_CTIME of wtmp_start/USEC_PER_SEC>\n"` summary
(lines 252-255). -/
def main_last (fmt : TimeFmt → Int → String) (path : String) (r : ReadResult) :
    Except String (List String × String) :=
  match r with
  | ReadResult.err m => Except.error (m.getD "Couldn't read all wtmp entries")
  | ReadResult.ok es =>
    let p := runPass fmt initState es
    Except.ok (p.2, "\n" ++ path ++ " begins " ++
      fmt TimeFmt.ctime (p.1.wtmp_start.tdiv USEC_PER_SEC) ++ "\n")

/-! ## Session writer and the storage collaborator (lines 260-374)

The storage collaborator (`wtmpdb_login`, `wtmpdb_logout`, `wtmpdb_get_id`
from libwtmpdb) is not part of the visible source; it is modelled from the
spec's §6 contract, with the store as a list of records. -/

/-- Modelled from the spec: one stored SessionRecord (§3); the `service`
column is never read by the visible code and is omitted. -/
structure DbRecord where
  id : Int
  type : Int
  user : String
  login : Int
  logout : Option Int
  tty : String
  host : String
deriving DecidableEq

/-- Whether a record is open (no logout) and on the given terminal. -/
def openMatch (tty : String) (r : DbRecord) : Bool :=
  r.logout.isNone && r.tty == tty

/-- Most recent (greatest login time) record of a candidate list. -/
def pickLatest : List DbRecord → Option DbRecord
  | [] => none
  | r :: rs =>
    match pickLatest rs with
    | none => some r
    | some b => if r.login < b.login then some b else some r

/-- Modelled from the spec: `get_open_id(path, tty_sentinel)` (§6) returns
the id of the most recent open record matching the terminal sentinel, or an
error (`none`; the C API signals it as a negative id). -/
def wtmpdb_get_id (db : List DbRecord) (tty : String) : Option Int :=
  (pickLatest (db.filter (openMatch tty))).map DbRecord.id

/-- Largest id present in the store (ids are store-assigned and unique;
`-1` when empty). -/
def maxId (db : List DbRecord) : Int :=
  db.foldl (fun m r => max m r.id) (-1)

/-- Modelled from the spec: `login(path, type, user, login_time, tty, host,
service)` (§6) creates a new open record and returns its fresh id. -/
def wtmpdb_login (db : List DbRecord) (type : Int) (user : String)
    (time : Int) (tty : String) (host : String) : List DbRecord × Int :=
  let nid := maxId db + 1
  (db ++ [⟨nid, type, user, time, none, tty, host⟩], nid)

/-- Modelled from the spec: `logout(path, id, logout_time)` (§6) closes an
existing open record; fails (`none`) if the id is unknown. -/
def wtmpdb_logout (db : List DbRecord) (id : Int) (time : Int) :
    Option (List DbRecord) :=
  if db.any (fun r => r.id == id) then
    some (db.map (fun r => if r.id == id then { r with logout := some time } else r))
  else none

/-- `main_boot` (lines 260-311) after option parsing: write a `BOOT_TIME`
record with user `"reboot"`, tty sentinel `"~"`, host = kernel release
(line 296).  The current time and the `uname` release string are the
environment inputs `now` and `release`. -/
def main_boot (db : List DbRecord) (now : Int) (release : String) :
    List DbRecord :=
  (wtmpdb_login db BOOT_TIME "reboot" now "~" release).1

/-- The failure modes of `main_shutdown` (spec §7): no open boot record
found by `wtmpdb_get_id` (lines 342-354), or a failing logout write
(lines 360-371). -/
inductive ShutdownErr
  | NO_OPEN_BOOT_RECORD
  | STORE_WRITE_ERROR
deriving DecidableEq

/-- `main_shutdown` (lines 313-374) after option parsing: look up the open
boot record by the `"~"` sentinel (line 342); on failure exit with an error
before any write; otherwise write `logout_time = now` onto it.  The pair
carries the store after the call (unchanged on every error path). -/
def main_shutdown (db : List DbRecord) (now : Int) :
    Except ShutdownErr Unit × List DbRecord :=
  match wtmpdb_get_id db "~" with
  | none => (Except.error ShutdownErr.NO_OPEN_BOOT_RECORD, db)
  | some id =>
    match wtmpdb_logout db id now with
    | none => (Except.error ShutdownErr.STORE_WRITE_ERROR, db)
    | some db2 => (Except.ok (), db2)

/-! ## Helper lemmas: duration decomposition -/

lemma durSecs_nonneg {lt gt : Int} (h : lt ≤ gt) : 0 ≤ durSecs lt gt := by
  unfold durSecs
  exact Int.tdiv_nonneg (by omega) (by decide)

lemma durMins_nonneg {s : Int} (h : 0 ≤ s) : 0 ≤ durMins s :=
  Int.tmod_nonneg 60 (Int.tdiv_nonneg h (by decide))

lemma durMins_le {s : Int} (h : 0 ≤ s) : durMins s ≤ 59 := by
  have h2 := Int.tmod_lt_of_pos (s.tdiv 60) (show (0:Int) < 60 by decide)
  unfold durMins
  omega

lemma durHours_nonneg {s : Int} (h : 0 ≤ s) : 0 ≤ durHours s :=
  Int.tmod_nonneg 24 (Int.tdiv_nonneg h (by decide))

lemma durHours_le {s : Int} (h : 0 ≤ s) : durHours s ≤ 23 := by
  have h2 := Int.tmod_lt_of_pos (s.tdiv 3600) (show (0:Int) < 24 by decide)
  unfold durHours
  omega

lemma durSecs_lt {lt gt : Int} (h : lt ≤ gt)
    (h2 : gt - lt < 86400 * USEC_PER_SEC) : durSecs lt gt < 86400 := by
  unfold durSecs
  rw [Int.tdiv_eq_ediv (by omega) (by decide)]
  rw [Int.ediv_lt_iff_lt_mul (show (0:Int) < USEC_PER_SEC by decide)]
  simp only [USEC_PER_SEC] at h2 ⊢
  omega

lemma durDays_eq_zero {lt gt : Int} (h : lt ≤ gt)
    (h2 : gt - lt < 86400 * USEC_PER_SEC) : durDays (durSecs lt gt) = 0 :=
  Int.tdiv_eq_zero_of_lt (durSecs_nonneg h) (durSecs_lt h h2)

/-! ## Helper lemmas: strtoll -/

lemma clamp64_le (x : Int) : (clamp64 x).1 ≤ INT64_MAX := by
  unfold clamp64
  split
  · exact le_refl _
  · split
    · decide
    · simp only [INT64_MAX] at *
      omega

lemma strtoll_val_le (s : String) : (strtoll s).val ≤ INT64_MAX := by
  by_cases hc : (strtollDigits s).isEmpty
  · simp [strtoll, hc]
    decide
  · simp only [strtoll, hc, if_false, Bool.false_eq_true]
    exact clamp64_le _

lemma strtoll_noconv {s : String} (h : (strtoll s).conv = false) :
    strtoll s = ⟨0, 0, false, false⟩ := by
  by_cases hc : (strtollDigits s).isEmpty
  · simp [strtoll, hc]
  · simp [strtoll, hc] at h

lemma length_pos_of_ne_empty {s : String} (h : s ≠ "") : 0 < s.length := by
  cases s with
  | mk cs =>
    cases cs with
    | nil => exact absurd rfl h
    | cons c cs => simp [String.length]

lemma timeWarn_of_noconv {s : String} (h : (strtoll s).conv = false)
    (h2 : s ≠ "") : timeWarn s = true := by
  have hz := strtoll_noconv h
  have hl := length_pos_of_ne_empty h2
  simp [timeWarn, hz, hl]

/-! ## Helper lemmas: line layout -/

lemma padTrunc_length (w : Nat) (s : String) : (padTrunc w s).length = w := by
  simp only [padTrunc, List.length_append, List.length_take, List.length_replicate]
  omega

lemma drop_append_cons {α : Type} (a : List α) (x : α) (b : List α) (k : Nat) :
    (a ++ x :: b).drop (a.length + (1 + k)) = b.drop k := by
  rw [← List.drop_drop, List.drop_left]
  rw [Nat.add_comm 1 k]
  rfl

lemma mkLine_drop58 (u t h li lo d : String) :
    (mkLine u t h li lo d).drop 58 = padTrunc 5 lo ++ ' ' :: (d.toList ++ ['\n']) := by
  have h8 := padTrunc_length 8 u
  have h12 := padTrunc_length 12 t
  have h16 := padTrunc_length 16 h
  have h16b := padTrunc_length 16 li
  unfold mkLine
  rw [show (58:Nat) = (padTrunc 8 u).length + (1 + 49) by omega, drop_append_cons]
  rw [show (49:Nat) = (padTrunc 12 t).length + (1 + 36) by omega, drop_append_cons]
  rw [show (36:Nat) = (padTrunc 16 h).length + (1 + 19) by omega, drop_append_cons]
  rw [show (19:Nat) = (padTrunc 16 li).length + (1 + 2) by omega, drop_append_cons]
  rfl

lemma mkLine_drop63 (u t h li lo d : String) :
    (mkLine u t h li lo d).drop 63 = ' ' :: (d.toList ++ ['\n']) := by
  have h5 := padTrunc_length 5 lo
  rw [show (63:Nat) = 58 + 5 from rfl, ← List.drop_drop, mkLine_drop58]
  exact List.drop_left' h5

lemma mkLine_tty_col (u t h li lo d : String) :
    ((mkLine u t h li lo d).drop 9).take 12 = padTrunc 12 t := by
  have h8 := padTrunc_length 8 u
  unfold mkLine
  rw [show (9:Nat) = (padTrunc 8 u).length + (1 + 0) by omega, drop_append_cons]
  rw [List.drop_zero]
  exact List.take_left' (padTrunc_length 12 t)

lemma toList_mk (l : List Char) : (String.mk l).toList = l := rfl

/-! ## Helper lemmas: print_entry and runPass -/

lemma print_entry_state_after (fmt : TimeFmt → Int → String) (st : PState)
    (e : RawEntry) :
    (print_entry fmt st e).state.after_reboot =
      if atoi e.typeRaw = BOOT_TIME then true else st.after_reboot := rfl

lemma print_entry_state_wtmp (fmt : TimeFmt → Int → String) (st : PState)
    (e : RawEntry) :
    (print_entry fmt st e).state.wtmp_start =
      if (strtoll e.loginRaw).val < st.wtmp_start then (strtoll e.loginRaw).val
      else st.wtmp_start := rfl

lemma print_entry_line (fmt : TimeFmt → Int → String) (st : PState)
    (e : RawEntry) :
    (print_entry fmt st e).line = String.mk (mkLine e.user
      (if atoi e.typeRaw = BOOT_TIME then "system boot" else e.tty)
      (e.host.getD "")
      (fmt TimeFmt.short ((strtoll e.loginRaw).val.tdiv USEC_PER_SEC))
      (logoutText st.after_reboot (atoi e.typeRaw) fmt e.logoutRaw)
      (durText st.after_reboot (atoi e.typeRaw) (strtoll e.loginRaw).val
        e.logoutRaw)) := rfl

lemma runPass_cons (fmt : TimeFmt → Int → String) (st : PState) (e : RawEntry)
    (es : List RawEntry) :
    runPass fmt st (e :: es) =
      ((runPass fmt (print_entry fmt st e).state es).1,
       (print_entry fmt st e).line ::
         (runPass fmt (print_entry fmt st e).state es).2) := rfl

lemma runPass_append (fmt : TimeFmt → Int → String) (as : List RawEntry) :
    ∀ (st : PState) (bs : List RawEntry),
    runPass fmt st (as ++ bs) =
      ((runPass fmt (runPass fmt st as).1 bs).1,
       (runPass fmt st as).2 ++ (runPass fmt (runPass fmt st as).1 bs).2) := by
  induction as with
  | nil => intro st bs; simp [runPass]
  | cons e es ih =>
    intro st bs
    simp only [List.cons_append, runPass_cons, ih]

lemma runPass_length (fmt : TimeFmt → Int → String) (es : List RawEntry) :
    ∀ st : PState, (runPass fmt st es).2.length = es.length := by
  induction es with
  | nil => intro st; rfl
  | cons e es ih => intro st; simp [runPass_cons, ih]

lemma runPass_after_mono (fmt : TimeFmt → Int → String) (es : List RawEntry) :
    ∀ st : PState, st.after_reboot = true →
      (runPass fmt st es).1.after_reboot = true := by
  induction es with
  | nil => intro st h; exact h
  | cons e es ih =>
    intro st h
    rw [runPass_cons]
    apply ih
    rw [print_entry_state_after]
    split
    · rfl
    · exact h

lemma logoutText_crash (type : Int) (fmt : TimeFmt → Int → String) :
    logoutText true type fmt none = "crash" := rfl

lemma durText_crash (type login_t : Int) :
    durText true type login_t none = "" := rfl

/-- The rendered line of an open entry processed while `after_reboot` is
set: logout column reads `crash`, duration text is empty. -/
lemma crash_line_shape (fmt : TimeFmt → Int → String) (st : PState)
    (u : RawEntry) (hst : st.after_reboot = true) (hul : u.logoutRaw = none) :
    ((print_entry fmt st u).line.toList.drop 58).take 5 = ("crash").toList ∧
    (print_entry fmt st u).line.toList.drop 63 = [' ', '\n'] := by
  rw [print_entry_line, toList_mk, hul, hst, logoutText_crash, durText_crash]
  constructor
  · rw [mkLine_drop58]
    rw [List.take_left' (padTrunc_length 5 "crash")]
    rfl
  · rw [mkLine_drop63]
    rfl

/-- In a pass whose stream contains a `BOOT_TIME` record `b` and, later, an
entry `u` with no logout, the line printed for `u` reads `crash` in the
logout column and has empty duration text. -/
lemma crash_line_at (fmt : TimeFmt → Int → String) (xs ys zs : List RawEntry)
    (b u : RawEntry) (hb : atoi b.typeRaw = BOOT_TIME)
    (hul : u.logoutRaw = none) :
    ∃ ln : String,
      (runPass fmt initState
          (xs ++ [b] ++ ys ++ [u] ++ zs)).2[xs.length + 1 + ys.length]? =
        some ln ∧
      (ln.toList.drop 58).take 5 = ("crash").toList ∧
      ln.toList.drop 63 = [' ', '\n'] := by
  have hsplit : xs ++ [b] ++ ys ++ [u] ++ zs = (xs ++ [b] ++ ys) ++ (u :: zs) := by
    simp
  rw [hsplit, runPass_append]
  set sA := (runPass fmt initState (xs ++ [b] ++ ys)).1 with hsA
  have hafter : sA.after_reboot = true := by
    rw [hsA, runPass_append]
    apply runPass_after_mono
    rw [runPass_append]
    have hb1 : (runPass fmt (runPass fmt initState xs).1 [b]).1 =
        (print_entry fmt (runPass fmt initState xs).1 b).state := rfl
    rw [hb1, print_entry_state_after, if_pos hb]
  have hlen : (runPass fmt initState (xs ++ [b] ++ ys)).2.length =
      xs.length + 1 + ys.length := by
    rw [runPass_length]
    simp
    omega
  refine ⟨(print_entry fmt sA u).line, ?_, ?_⟩
  · rw [List.getElem?_append_right (by omega)]
    rw [hlen]
    simp only [Nat.sub_self]
    rw [runPass_cons]
    simp
  · exact crash_line_shape fmt sA u hafter hul

/-! ## Helper lemmas: the running minimum `wtmp_start` -/

lemma runPass_wtmp_le (fmt : TimeFmt → Int → String) (es : List RawEntry) :
    ∀ st : PState, (runPass fmt st es).1.wtmp_start ≤ st.wtmp_start := by
  induction es with
  | nil => intro st; exact le_refl _
  | cons e es ih =>
    intro st
    rw [runPass_cons]
    calc (runPass fmt (print_entry fmt st e).state es).1.wtmp_start
        ≤ (print_entry fmt st e).state.wtmp_start := ih _
      _ ≤ st.wtmp_start := by
          rw [print_entry_state_wtmp]
          split
          · omega
          · exact le_refl _

lemma runPass_wtmp_le_mem (fmt : TimeFmt → Int → String) (es : List RawEntry) :
    ∀ (st : PState) (e0 : RawEntry), e0 ∈ es →
      (runPass fmt st es).1.wtmp_start ≤ (strtoll e0.loginRaw).val := by
  induction es with
  | nil => intro st e0 h; cases h
  | cons e es ih =>
    intro st e0 h
    rw [runPass_cons]
    rcases List.mem_cons.mp h with h1 | h2
    · subst h1
      calc (runPass fmt (print_entry fmt st e0).state es).1.wtmp_start
          ≤ (print_entry fmt st e0).state.wtmp_start := runPass_wtmp_le fmt es _
        _ ≤ (strtoll e0.loginRaw).val := by
            rw [print_entry_state_wtmp]
            split
            · exact le_refl _
            · omega
    · exact ih _ e0 h2

lemma runPass_wtmp_eq_or_mem (fmt : TimeFmt → Int → String)
    (es : List RawEntry) :
    ∀ st : PState,
      (runPass fmt st es).1.wtmp_start = st.wtmp_start ∨
      ∃ e0 ∈ es, (runPass fmt st es).1.wtmp_start = (strtoll e0.loginRaw).val := by
  induction es with
  | nil => intro st; exact Or.inl rfl
  | cons e es ih =>
    intro st
    rw [runPass_cons]
    rcases ih (print_entry fmt st e).state with h | ⟨e0, he0, hv⟩
    · rw [h, print_entry_state_wtmp]
      by_cases hc : (strtoll e.loginRaw).val < st.wtmp_start
      · right
        exact ⟨e, List.mem_cons_self e es, by rw [if_pos hc]⟩
      · left
        rw [if_neg hc]
    · right
      exact ⟨e0, List.mem_cons_of_mem e he0, hv⟩

/-! ## Helper lemmas: the store model -/

lemma foldl_max_init_le (l : List DbRecord) :
    ∀ init : Int, init ≤ l.foldl (fun m x => max m x.id) init := by
  induction l with
  | nil => intro init; exact le_refl _
  | cons a l ih =>
    intro init
    calc init ≤ max init a.id := le_max_left _ _
      _ ≤ l.foldl (fun m x => max m x.id) (max init a.id) := ih _

lemma id_le_foldl_max (l : List DbRecord) :
    ∀ (init : Int) (r : DbRecord), r ∈ l →
      r.id ≤ l.foldl (fun m x => max m x.id) init := by
  induction l with
  | nil => intro _ _ h; cases h
  | cons a l ih =>
    intro init r h
    rcases List.mem_cons.mp h with h1 | h2
    · subst h1
      calc r.id ≤ max init r.id := le_max_right _ _
        _ ≤ l.foldl (fun m x => max m x.id) (max init r.id) :=
            foldl_max_init_le l _
    · exact ih _ r h2

lemma id_ne_fresh {db : List DbRecord} {r : DbRecord} (h : r ∈ db) :
    r.id ≠ maxId db + 1 := by
  have := id_le_foldl_max db (-1) r h
  unfold maxId
  omega

/-! ## Claim theorems -/

/-- C1 (amended): for a record with both timestamps satisfying the
documented invariant `logout_time >= login_time`, the rendered duration's
minutes component is in [0,59] and its hours component in [0,23], and a zero
duration renders as the `" (00:00)"` bucket.  (As stated over arbitrary sign
anomalies the claim is false: see the counterexample, where a negative
duration renders the negative digit `-1`.) -/
theorem C1_duration_components (lt gt : Int) (h : lt ≤ gt) :
    0 ≤ durMins (durSecs lt gt) ∧ durMins (durSecs lt gt) ≤ 59 ∧
    0 ≤ durHours (durSecs lt gt) ∧ durHours (durSecs lt gt) ≤ 23 ∧
    (durSecs lt gt = 0 → lengthText lt gt = " (00:00)") := by
  have hs := durSecs_nonneg h
  refine ⟨durMins_nonneg hs, durMins_le hs, durHours_nonneg hs,
    durHours_le hs, ?_⟩
  intro h0
  simp only [lengthText, h0]
  decide

/-- C1 witness: the spec's own example, a 3725-second session
(login 0, logout 3725000000 microseconds). -/
theorem C1_witness :
    0 ≤ durMins (durSecs 0 3725000000) ∧ durMins (durSecs 0 3725000000) ≤ 59 ∧
    0 ≤ durHours (durSecs 0 3725000000) ∧ durHours (durSecs 0 3725000000) ≤ 23 ∧
    (durSecs 0 3725000000 = 0 → lengthText 0 3725000000 = " (00:00)") :=
  C1_duration_components 0 3725000000 (by decide)

/-- C1 counterexample: a record whose login is 60 seconds after its logout
has duration minutes component -1, and its rendered line's duration text is
`" (00:-1)"` - a negative digit in the `" (00:MM)"` bucket, contradicting
the claim that the minutes component is always in [0,59] and that no
negative digits ever appear. -/
theorem C1_counterexample :
    durMins (durSecs 60000000 0) = -1 ∧
    (print_entry format_time initState
        { typeRaw := "3", user := "alice", loginRaw := "60000000",
          logoutRaw := some "0", tty := "tty1",
          host := some "" }).line.toList.drop 64 =
      (" (00:-1)" ++ "\n").toList := by
  decide

/-- C2 (amended): every rendered line is, left to right, the user
left-justified/truncated to 8 chars, a space, the terminal to 12 chars, a
space, the host to 16 chars, a space, the SHORT-format login-time text to 16
chars, then the literal separator `" - "`, then the logout-time text to 5
chars (CLOCK format of the logout time, or one of the literals
`"still"`/`"crash"`/`"ERROR"`), a space, and the free-length duration/status
text.  (The claim as stated places the `"-"` separator between the host and
the login-time text; in the code it sits between the login-time and
logout-time columns - see the counterexample.) -/
theorem C2_line_layout (fmt : TimeFmt → Int → String) (st : PState)
    (e : RawEntry) :
    ∃ lt dt : String,
      (print_entry fmt st e).line = String.mk (mkLine e.user
        (if atoi e.typeRaw = BOOT_TIME then "system boot" else e.tty)
        (e.host.getD "")
        (fmt TimeFmt.short ((strtoll e.loginRaw).val.tdiv USEC_PER_SEC))
        lt dt) ∧
      ((∃ lr, e.logoutRaw = some lr ∧
          lt = fmt TimeFmt.hhmm ((strtoll lr).val.tdiv USEC_PER_SEC) ∧
          dt = lengthText (strtoll e.loginRaw).val (strtoll lr).val) ∨
        (lt = "crash" ∧ dt = "") ∨
        (lt = "still" ∧ dt = "logged in") ∨
        (lt = "still" ∧ dt = "running") ∨
        (lt = "ERROR" ∧ dt = "Unknown: " ++ toString (atoi e.typeRaw))) := by
  refine ⟨logoutText st.after_reboot (atoi e.typeRaw) fmt e.logoutRaw,
    durText st.after_reboot (atoi e.typeRaw) (strtoll e.loginRaw).val
      e.logoutRaw, print_entry_line fmt st e, ?_⟩
  cases hl : e.logoutRaw with
  | some lr =>
    left
    exact ⟨lr, rfl, by rw [logoutText], by rw [durText]⟩
  | none =>
    simp only [logoutText, durText]
    split_ifs <;> simp

/-- C2 counterexample: on a concrete record (rendered with the modelled
time codec) the first 41 characters of the line - more than enough to cover
the claimed user(8) + terminal(12) + host(16) columns and separating spaces -
contain no `'-'` at all; the separator `'-'` appears at index 56, after the
16-char login-time column, which itself starts at index 39 directly after
the host column.  The claimed layout (separator between host and login time)
is therefore false for this line. -/
theorem C2_counterexample :
    (((print_entry format_time initState
        { typeRaw := "3", user := "alice", loginRaw := "0",
          logoutRaw := some "0", tty := "tty1",
          host := some "host" }).line.toList.take 41).all
        (fun c => c != '-')) = true ∧
    (print_entry format_time initState
        { typeRaw := "3", user := "alice", loginRaw := "0",
          logoutRaw := some "0", tty := "tty1",
          host := some "host" }).line.toList[56]? = some '-' ∧
    ((print_entry format_time initState
        { typeRaw := "3", user := "alice", loginRaw := "0",
          logoutRaw := some "0", tty := "tty1",
          host := some "host" }).line.toList.drop 39).take 16 =
      ("Thu Jan  1 00:00").toList := by
  decide

/-- C5: a `BOOT_TIME` record renders its terminal column (the 12 characters
at offset 9 of the line) as the literal `"system boot"` (space-padded to the
12-char column), regardless of the stored terminal value. -/
theorem C5_boot_terminal (fmt : TimeFmt → Int → String) (st : PState)
    (e : RawEntry) (h : atoi e.typeRaw = BOOT_TIME) :
    ((print_entry fmt st e).line.toList.drop 9).take 12 =
      ("system boot ").toList := by
  rw [print_entry_line, toList_mk, mkLine_tty_col, if_pos h]
  decide

/-- C5 witness: a boot record whose stored tty is `"~"` still shows
`"system boot"`. -/
theorem C5_witness :
    ((print_entry format_time initState
        { typeRaw := "1", user := "reboot", loginRaw := "0",
          logoutRaw := none, tty := "~",
          host := some "6.4.0" }).line.toList.drop 9).take 12 =
      ("system boot ").toList :=
  C5_boot_terminal format_time initState _ (by decide)

/-- C3: once a `BOOT_TIME` record with no logout has been processed in a
pass, every subsequent `USER_PROCESS` record with no logout renders its
logout column (5 chars at offset 58) as the literal `"crash"` and has empty
duration text (the line ends with `" \n"` right after the logout column) -
in particular never as `"still"` / `"logged in"`. -/
theorem C3_crash_after_boot (fmt : TimeFmt → Int → String)
    (xs ys zs : List RawEntry) (b u : RawEntry)
    (hb : atoi b.typeRaw = BOOT_TIME) (hbl : b.logoutRaw = none)
    (hu : atoi u.typeRaw = USER_PROCESS) (hul : u.logoutRaw = none) :
    ∃ ln : String,
      (runPass fmt initState
          (xs ++ [b] ++ ys ++ [u] ++ zs)).2[xs.length + 1 + ys.length]? =
        some ln ∧
      (ln.toList.drop 58).take 5 = ("crash").toList ∧
      ln.toList.drop 63 = [' ', '\n'] :=
  crash_line_at fmt xs ys zs b u hb hul

/-- C3 witness: the spec's example - an open boot record at login 100
seconds followed by an open user record at login 50 seconds renders the user
record as `"crash"`. -/
theorem C3_witness :
    ∃ ln : String,
      (runPass format_time initState
          [{ typeRaw := "1", user := "reboot", loginRaw := "100000000",
             logoutRaw := none, tty := "~", host := some "6.4.0" },
           { typeRaw := "3", user := "alice", loginRaw := "50000000",
             logoutRaw := none, tty := "tty1", host := some "" }]).2[1]? =
        some ln ∧
      (ln.toList.drop 58).take 5 = ("crash").toList ∧
      ln.toList.drop 63 = [' ', '\n'] :=
  C3_crash_after_boot format_time [] [] []
    { typeRaw := "1", user := "reboot", loginRaw := "100000000",
      logoutRaw := none, tty := "~", host := some "6.4.0" }
    { typeRaw := "3", user := "alice", loginRaw := "50000000",
      logoutRaw := none, tty := "tty1", host := some "" }
    (by decide) rfl (by decide) rfl

/-- C9: an open `BOOT_TIME` record (no logout) that appears after an earlier
`BOOT_TIME` record in the same pass renders its logout column as `"crash"`
with empty duration text rather than `"still"` / `"running"`: the
`after_reboot` check of line 136 precedes the per-type switch of line 143,
so only the first boot marker of a pass can render as still running. -/
theorem C9_second_boot_crash (fmt : TimeFmt → Int → String)
    (xs ys zs : List RawEntry) (b1 b2 : RawEntry)
    (h1 : atoi b1.typeRaw = BOOT_TIME)
    (h2 : atoi b2.typeRaw = BOOT_TIME) (h2l : b2.logoutRaw = none) :
    ∃ ln : String,
      (runPass fmt initState
          (xs ++ [b1] ++ ys ++ [b2] ++ zs)).2[xs.length + 1 + ys.length]? =
        some ln ∧
      (ln.toList.drop 58).take 5 = ("crash").toList ∧
      ln.toList.drop 63 = [' ', '\n'] :=
  crash_line_at fmt xs ys zs b1 b2 h1 h2l

/-- C9 witness: two consecutive open boot records; the second renders as
`"crash"`. -/
theorem C9_witness :
    ∃ ln : String,
      (runPass format_time initState
          [{ typeRaw := "1", user := "reboot", loginRaw := "100000000",
             logoutRaw := none, tty := "~", host := some "6.4.0" },
           { typeRaw := "1", user := "reboot", loginRaw := "200000000",
             logoutRaw := none, tty := "~", host := some "6.4.0" }]).2[1]? =
        some ln ∧
      (ln.toList.drop 58).take 5 = ("crash").toList ∧
      ln.toList.drop 63 = [' ', '\n'] :=
  C9_second_boot_crash format_time [] [] []
    { typeRaw := "1", user := "reboot", loginRaw := "100000000",
      logoutRaw := none, tty := "~", host := some "6.4.0" }
    { typeRaw := "1", user := "reboot", loginRaw := "200000000",
      logoutRaw := none, tty := "~", host := some "6.4.0" }
    (by decide) (by decide) rfl

/-- C4: after a full pass over a non-empty stream the tracked `wtmp_start`
is the minimum of the (parsed) login times of all delivered records - it is
one of them and a lower bound of all of them; re-running the pass from the
resulting state yields the same value; and `main_last` ends with the
trailing summary line `"\n<path> begins <TIMEFMT_CTIME of wtmp_start>\n"`. -/
theorem C4_earliest_login (fmt : TimeFmt → Int → String) (path : String)
    (es : List RawEntry) (hne : es ≠ []) :
    (runPass fmt initState es).1.wtmp_start ∈
      es.map (fun e => (strtoll e.loginRaw).val) ∧
    (∀ v ∈ es.map (fun e => (strtoll e.loginRaw).val),
      (runPass fmt initState es).1.wtmp_start ≤ v) ∧
    (runPass fmt (runPass fmt initState es).1 es).1.wtmp_start =
      (runPass fmt initState es).1.wtmp_start ∧
    main_last fmt path (ReadResult.ok es) =
      Except.ok ((runPass fmt initState es).2,
        "\n" ++ path ++ " begins " ++
          fmt TimeFmt.ctime
            ((runPass fmt initState es).1.wtmp_start.tdiv USEC_PER_SEC) ++
          "\n") := by
  refine ⟨?_, ?_, ?_, rfl⟩
  · rcases runPass_wtmp_eq_or_mem fmt es initState with h | ⟨e0, he0, hv⟩
    · obtain ⟨e1, he1⟩ := List.exists_mem_of_ne_nil es hne
      have h2 := runPass_wtmp_le_mem fmt es initState e1 he1
      have h3 := strtoll_val_le e1.loginRaw
      have h4 : initState.wtmp_start = INT64_MAX := rfl
      refine List.mem_map.mpr ⟨e1, he1, ?_⟩
      omega
    · exact List.mem_map.mpr ⟨e0, he0, hv.symm⟩
  · intro v hv
    obtain ⟨e0, he0, rfl⟩ := List.mem_map.mp hv
    exact runPass_wtmp_le_mem fmt es initState e0 he0
  · have h1 := runPass_wtmp_le fmt es (runPass fmt initState es).1
    rcases runPass_wtmp_eq_or_mem fmt es (runPass fmt initState es).1 with
      h | ⟨e0, he0, hv⟩
    · exact h
    · have h2 := runPass_wtmp_le_mem fmt es initState e0 he0
      omega

/-- C4 witness: two records with login times 5000000 and 2000000
microseconds; the tracked minimum is 2000000. -/
theorem C4_witness :
    (runPass format_time initState
        [{ typeRaw := "3", user := "alice", loginRaw := "5000000",
           logoutRaw := some "6000000", tty := "tty1", host := some "" },
         { typeRaw := "3", user := "bob", loginRaw := "2000000",
           logoutRaw := none, tty := "tty2", host := some "" }]).1.wtmp_start ∈
      ([{ typeRaw := "3", user := "alice", loginRaw := "5000000",
          logoutRaw := some "6000000", tty := "tty1", host := some "" },
        { typeRaw := "3", user := "bob", loginRaw := "2000000",
          logoutRaw := none, tty := "tty2", host := some "" }] :
        List RawEntry).map (fun e => (strtoll e.loginRaw).val) ∧
    (∀ v, v ∈ ([⟨"3", "alice", "5000000", some "6000000", "tty1", some ""⟩,
        ⟨"3", "bob", "2000000", none, "tty2", some ""⟩] :
        List RawEntry).map (fun e => (strtoll e.loginRaw).val) →
      (runPass format_time initState
        [{ typeRaw := "3", user := "alice", loginRaw := "5000000",
           logoutRaw := some "6000000", tty := "tty1", host := some "" },
         { typeRaw := "3", user := "bob", loginRaw := "2000000",
           logoutRaw := none, tty := "tty2", host := some "" }]).1.wtmp_start ≤ v) ∧
    (runPass format_time
        (runPass format_time initState
          [{ typeRaw := "3", user := "alice", loginRaw := "5000000",
             logoutRaw := some "6000000", tty := "tty1", host := some "" },
           { typeRaw := "3", user := "bob", loginRaw := "2000000",
             logoutRaw := none, tty := "tty2", host := some "" }]).1
        [{ typeRaw := "3", user := "alice", loginRaw := "5000000",
           logoutRaw := some "6000000", tty := "tty1", host := some "" },
         { typeRaw := "3", user := "bob", loginRaw := "2000000",
           logoutRaw := none, tty := "tty2", host := some "" }]).1.wtmp_start =
      (runPass format_time initState
        [{ typeRaw := "3", user := "alice", loginRaw := "5000000",
           logoutRaw := some "6000000", tty := "tty1", host := some "" },
         { typeRaw := "3", user := "bob", loginRaw := "2000000",
           logoutRaw := none, tty := "tty2", host := some "" }]).1.wtmp_start ∧
    main_last format_time "/var/lib/wtmpdb/wtmp.db"
        (ReadResult.ok
          [{ typeRaw := "3", user := "alice", loginRaw := "5000000",
             logoutRaw := some "6000000", tty := "tty1", host := some "" },
           { typeRaw := "3", user := "bob", loginRaw := "2000000",
             logoutRaw := none, tty := "tty2", host := some "" }]) =
      Except.ok ((runPass format_time initState
          [{ typeRaw := "3", user := "alice", loginRaw := "5000000",
             logoutRaw := some "6000000", tty := "tty1", host := some "" },
           { typeRaw := "3", user := "bob", loginRaw := "2000000",
             logoutRaw := none, tty := "tty2", host := some "" }]).2,
        "\n" ++ "/var/lib/wtmpdb/wtmp.db" ++ " begins " ++
          format_time TimeFmt.ctime
            ((runPass format_time initState
              [{ typeRaw := "3", user := "alice", loginRaw := "5000000",
                 logoutRaw := some "6000000", tty := "tty1", host := some "" },
               { typeRaw := "3", user := "bob", loginRaw := "2000000",
                 logoutRaw := none, tty := "tty2",
                 host := some "" }]).1.wtmp_start.tdiv USEC_PER_SEC) ++
          "\n") :=
  C4_earliest_login format_time "/var/lib/wtmpdb/wtmp.db"
    [{ typeRaw := "3", user := "alice", loginRaw := "5000000",
       logoutRaw := some "6000000", tty := "tty1", host := some "" },
     { typeRaw := "3", user := "bob", loginRaw := "2000000",
       logoutRaw := none, tty := "tty2", host := some "" }] (by simp)

/-- C10: an empty record stream still succeeds: `main_last` reports
no per-record lines, and the trailing summary line is still printed, with
`wtmp_start` left at its initial sentinel `INT64_MAX`, formatted by the
time codec as a (far-future) calendar date rather than suppressed or
reported as an error. -/
theorem C10_empty_stream (fmt : TimeFmt → Int → String) (path : String) :
    main_last fmt path (ReadResult.ok []) =
      Except.ok ([], "\n" ++ path ++ " begins " ++
        fmt TimeFmt.ctime (INT64_MAX.tdiv USEC_PER_SEC) ++ "\n") ∧
    format_time TimeFmt.ctime (INT64_MAX.tdiv USEC_PER_SEC) =
      "Sun Jan 10 04:00:54 294247" :=
  ⟨rfl, by decide⟩

/-- C6: when the id-lookup for the open boot record (sentinel terminal
`"~"`) fails during shutdown, `NO_OPEN_BOOT_RECORD` is surfaced to the
caller and no logout write is attempted: the store is returned unchanged. -/
theorem C6_shutdown_no_open_boot (db : List DbRecord) (now : Int)
    (h : wtmpdb_get_id db "~" = none) :
    main_shutdown db now = (Except.error ShutdownErr.NO_OPEN_BOOT_RECORD, db) := by
  unfold main_shutdown
  rw [h]

/-- C6 witness: shutdown against an empty store. -/
theorem C6_witness :
    main_shutdown [] 0 = (Except.error ShutdownErr.NO_OPEN_BOOT_RECORD, []) :=
  C6_shutdown_no_open_boot [] 0 (by decide)

/-- C7: for every pair of times with `t2 >= t`, `open_boot_session(t)`
followed immediately by `close_current_boot_session(t2)` against a store
holding no boot records (no `"~"`-terminal and no `BOOT_TIME` rows) yields
exactly one `BOOT_TIME` record - user `"reboot"`, terminal `"~"`, host the
kernel release, `login_time = t`, `logout_time = t2` - whose duration
renders non-negative, with zero days whenever additionally
`t2 - t < 86400` seconds. -/
theorem C7_boot_shutdown_roundtrip (db : List DbRecord) (t t2 : Int)
    (rel : String)
    (hns : ∀ r ∈ db, r.tty ≠ "~") (hnb : ∀ r ∈ db, r.type ≠ BOOT_TIME)
    (hle : t ≤ t2) :
    ∃ db2 : List DbRecord,
      main_shutdown (main_boot db t rel) t2 = (Except.ok (), db2) ∧
      db2.filter (fun r => r.type == BOOT_TIME) =
        [{ id := maxId db + 1, type := BOOT_TIME, user := "reboot",
           login := t, logout := some t2, tty := "~", host := rel }] ∧
      0 ≤ durSecs t t2 ∧ 0 ≤ durHours (durSecs t t2) ∧
      0 ≤ durMins (durSecs t t2) ∧
      (t2 - t < 86400 * USEC_PER_SEC → durDays (durSecs t t2) = 0) := by
  have hboot : main_boot db t rel = db ++
      [{ id := maxId db + 1, type := BOOT_TIME, user := "reboot", login := t,
         logout := none, tty := "~", host := rel }] := rfl
  have hfilter : (db ++
      [({ id := maxId db + 1, type := BOOT_TIME, user := "reboot", login := t,
          logout := none, tty := "~", host := rel } : DbRecord)]).filter
        (openMatch "~") =
      [{ id := maxId db + 1, type := BOOT_TIME, user := "reboot", login := t,
         logout := none, tty := "~", host := rel }] := by
    rw [List.filter_append]
    have hdb : db.filter (openMatch "~") = [] := by
      rw [List.filter_eq_nil_iff]
      intro a ha
      simp [openMatch, hns a ha]
    rw [hdb]
    simp [openMatch]
  have hget : wtmpdb_get_id (db ++
      [({ id := maxId db + 1, type := BOOT_TIME, user := "reboot", login := t,
          logout := none, tty := "~", host := rel } : DbRecord)]) "~" =
      some (maxId db + 1) := by
    unfold wtmpdb_get_id
    rw [hfilter]
    rfl
  have hany : (db ++
      [({ id := maxId db + 1, type := BOOT_TIME, user := "reboot", login := t,
          logout := none, tty := "~", host := rel } : DbRecord)]).any
        (fun r => r.id == maxId db + 1) = true := by
    rw [List.any_append]
    simp
  have hmapdb : db.map
      (fun r => if r.id == maxId db + 1 then { r with logout := some t2 }
        else r) = db := by
    conv_rhs => rw [← List.map_id db]
    apply List.map_congr_left
    intro a ha
    have h2 := id_ne_fresh ha
    simp [h2]
  have hlogout : wtmpdb_logout (db ++
      [({ id := maxId db + 1, type := BOOT_TIME, user := "reboot", login := t,
          logout := none, tty := "~", host := rel } : DbRecord)])
        (maxId db + 1) t2 =
      some (db ++
        [{ id := maxId db + 1, type := BOOT_TIME, user := "reboot", login := t,
           logout := some t2, tty := "~", host := rel }]) := by
    unfold wtmpdb_logout
    simp only [hany, if_true, List.map_append, hmapdb]
    simp
  refine ⟨db ++
    [{ id := maxId db + 1, type := BOOT_TIME, user := "reboot", login := t,
       logout := some t2, tty := "~", host := rel }], ?_, ?_,
    durSecs_nonneg hle, durHours_nonneg (durSecs_nonneg hle),
    durMins_nonneg (durSecs_nonneg hle), fun hlt => durDays_eq_zero hle hlt⟩
  · rw [hboot]
    simp only [main_shutdown, hget, hlogout]
  · rw [List.filter_append]
    have hdb : db.filter (fun r => r.type == BOOT_TIME) = [] := by
      rw [List.filter_eq_nil_iff]
      intro a ha
      simp [hnb a ha]
    rw [hdb]
    simp

/-- C7 witness: boot at time 0 then shutdown at time 5000000 microseconds
against the empty store. -/
theorem C7_witness :
    ∃ db2 : List DbRecord,
      main_shutdown (main_boot [] 0 "6.4.0") 5000000 = (Except.ok (), db2) ∧
      db2.filter (fun r => r.type == BOOT_TIME) =
        [{ id := 0, type := BOOT_TIME, user := "reboot", login := 0,
           logout := some 5000000, tty := "~", host := "6.4.0" }] ∧
      0 ≤ durSecs 0 5000000 ∧ 0 ≤ durHours (durSecs 0 5000000) ∧
      0 ≤ durMins (durSecs 0 5000000) ∧
      (5000000 - 0 < 86400 * USEC_PER_SEC → durDays (durSecs 0 5000000) = 0) :=
  C7_boot_shutdown_roundtrip [] 0 5000000 "6.4.0" (by simp) (by simp)
    (by decide)

lemma logoutText_congr (ar : Bool) (ty : Int) (fmt : TimeFmt → Int → String)
    {o o2 : Option String}
    (h : o.map (fun s => (strtoll s).val) = o2.map (fun s => (strtoll s).val)) :
    logoutText ar ty fmt o = logoutText ar ty fmt o2 := by
  cases o with
  | none =>
    cases o2 with
    | none => rfl
    | some lr2 => simp at h
  | some lr =>
    cases o2 with
    | none => simp at h
    | some lr2 =>
      simp at h
      simp [logoutText, h]

lemma durText_congr (ar : Bool) (ty : Int) {lv lv2 : Int} (hlv : lv = lv2)
    {o o2 : Option String}
    (h : o.map (fun s => (strtoll s).val) = o2.map (fun s => (strtoll s).val)) :
    durText ar ty lv o = durText ar ty lv2 o2 := by
  subst hlv
  cases o with
  | none =>
    cases o2 with
    | none => rfl
    | some lr2 => simp at h
  | some lr =>
    cases o2 with
    | none => simp at h
    | some lr2 =>
      simp at h
      simp [durText, h]

/-- C8 (amended): when a record's login or logout timestamp field fails to
parse as an integer, report generation does not abort: the parse-failure
warning for that field is emitted, the line is still rendered, and the
timestamp used for rendering is the value `strtoll` extracts from the
longest numeric prefix: the rendered line and updated state agree with those
of any record whose timestamp fields extract to the same values (so a
partially numeric field renders exactly as its parsed prefix), and that
extracted value is zero precisely in the no-digits-at-all case. -/
theorem C8_parse_fallback (fmt : TimeFmt → Int → String) (st : PState)
    (e e2 : RawEntry)
    (ht : e2.typeRaw = e.typeRaw) (hu : e2.user = e.user)
    (htty : e2.tty = e.tty) (hh : e2.host = e.host)
    (hl : (strtoll e2.loginRaw).val = (strtoll e.loginRaw).val)
    (hlo : e2.logoutRaw.map (fun s => (strtoll s).val) =
      e.logoutRaw.map (fun s => (strtoll s).val)) :
    (timeWarn e.loginRaw = true →
      (print_entry fmt st e).warnings.head? =
        some ("Invalid numeric time entry for 'login': '" ++ e.loginRaw ++ "'")) ∧
    (∀ lr, e.logoutRaw = some lr → timeWarn lr = true →
      ("Invalid numeric time entry for 'logout': '" ++ lr ++ "'") ∈
        (print_entry fmt st e).warnings) ∧
    ((strtoll e.loginRaw).conv = false → (strtoll e.loginRaw).val = 0) ∧
    (∀ lr, e.logoutRaw = some lr → (strtoll lr).conv = false →
      (strtoll lr).val = 0) ∧
    (print_entry fmt st e).line = (print_entry fmt st e2).line ∧
    (print_entry fmt st e).state = (print_entry fmt st e2).state := by
  refine ⟨?_, ?_, ?_, ?_, ?_, ?_⟩
  · intro hw
    simp [print_entry, parseWarn, hw]
  · intro lr hlr hw
    simp [print_entry, parseWarn, hlr, hw]
  · intro hc
    rw [strtoll_noconv hc]
  · intro lr hlr hc
    rw [strtoll_noconv hc]
  · rw [print_entry_line fmt st e, print_entry_line fmt st e2]
    rw [ht, hu, htty, hh, hl]
    rw [logoutText_congr st.after_reboot (atoi e.typeRaw) fmt hlo.symm]
    rw [durText_congr st.after_reboot (atoi e.typeRaw) rfl hlo.symm]
  · simp [print_entry, ht, hl]

/-- C8 witness: a record with partially numeric login field
`"90000000000x"` and logout field `"12x"` warns on both fields yet renders
exactly like the record with the parsed-prefix fields `"90000000000"` and
`"12"`. -/
theorem C8_witness :
    (timeWarn "90000000000x" = true →
      (print_entry format_time initState
          { typeRaw := "3", user := "alice", loginRaw := "90000000000x",
            logoutRaw := some "12x", tty := "tty1",
            host := some "" }).warnings.head? =
        some ("Invalid numeric time entry for 'login': '" ++ "90000000000x" ++
          "'")) ∧
    (∀ lr, (some "12x" : Option String) = some lr → timeWarn lr = true →
      ("Invalid numeric time entry for 'logout': '" ++ lr ++ "'") ∈
        (print_entry format_time initState
          { typeRaw := "3", user := "alice", loginRaw := "90000000000x",
            logoutRaw := some "12x", tty := "tty1",
            host := some "" }).warnings) ∧
    ((strtoll "90000000000x").conv = false → (strtoll "90000000000x").val = 0) ∧
    (∀ lr, (some "12x" : Option String) = some lr →
      (strtoll lr).conv = false → (strtoll lr).val = 0) ∧
    (print_entry format_time initState
        { typeRaw := "3", user := "alice", loginRaw := "90000000000x",
          logoutRaw := some "12x", tty := "tty1", host := some "" }).line =
      (print_entry format_time initState
        { typeRaw := "3", user := "alice", loginRaw := "90000000000",
          logoutRaw := some "12", tty := "tty1", host := some "" }).line ∧
    (print_entry format_time initState
        { typeRaw := "3", user := "alice", loginRaw := "90000000000x",
          logoutRaw := some "12x", tty := "tty1", host := some "" }).state =
      (print_entry format_time initState
        { typeRaw := "3", user := "alice", loginRaw := "90000000000",
          logoutRaw := some "12", tty := "tty1", host := some "" }).state :=
  C8_parse_fallback format_time initState
    { typeRaw := "3", user := "alice", loginRaw := "90000000000x",
      logoutRaw := some "12x", tty := "tty1", host := some "" }
    { typeRaw := "3", user := "alice", loginRaw := "90000000000",
      logoutRaw := some "12", tty := "tty1", host := some "" }
    (by decide) (by decide) (by decide) (by decide) (by decide) (by decide)

/-- C8 counterexample: the login field `"90000000000x"` fails the parse
check (a warning is emitted), yet the value used for rendering is the parsed
prefix 90000000000, not the claimed fallback of zero: the rendered line
differs from the line rendered with a zero login timestamp. -/
theorem C8_counterexample :
    timeWarn "90000000000x" = true ∧
    (strtoll "90000000000x").val = 90000000000 ∧
    (print_entry format_time initState
        { typeRaw := "3", user := "alice", loginRaw := "90000000000x",
          logoutRaw := some "176400000000", tty := "tty1",
          host := some "" }).line ≠
      (print_entry format_time initState
        { typeRaw := "3", user := "alice", loginRaw := "0",
          logoutRaw := some "176400000000", tty := "tty1",
          host := some "" }).line := by
  decide

end Wtmpdb
